import Mathlib

/-!
Shallow embedding of the Google-Trend-Dash repository (src/app.py,
src/trend_data.py, src/trend_charts.py, src/utils.py) and proofs about it.

Strings from the Python side are modelled as `List Char`; machine behaviour
that matters to the claims (truthiness of empty strings and lists, the
`str.strip` family, `str.split(",")`, dict lookup, exceptions) is translated
explicitly.  Exceptions are modelled with `Except Unit`; a `Bool` component
records whether any network call on the external pytrends client was
attempted.
-/

/-- Characters stripped by Python `str.strip()` with no arguments
(ASCII whitespace: space, tab, newline, carriage return, vertical tab,
form feed). -/
def isPySpace (c : Char) : Bool :=
  c = ' ' || c = '\t' || c = '\n' || c = '\r' || c = Char.ofNat 11 || c = Char.ofNat 12

/-- The exact character set passed to the second `strip` in
`app.py:_parse_keywords`.  The source file contains the UTF-8 bytes for
the five characters double quote, single quote, U+00E2, U+20AC, U+2122
(the latter three are a mojibake rendering of curly quotes; the curly
quote characters themselves are not in the set). -/
def quoteChars : List Char :=
  ['"', Char.ofNat 39, Char.ofNat 0xE2, Char.ofNat 0x20AC, Char.ofNat 0x2122]

/-- Membership in the quote-strip character set. -/
def isQuoteChar (c : Char) : Bool := quoteChars.contains c

/-- Python `s.strip(chars)`: drop characters satisfying `p` from both ends. -/
def pyStrip (p : Char → Bool) (l : List Char) : List Char :=
  ((l.dropWhile p).reverse.dropWhile p).reverse

/-- Python `raw.split(",")`: split at every comma, keeping empty pieces;
the empty string splits to one empty piece. -/
def splitOnComma : List Char → List (List Char)
  | [] => [[]]
  | c :: rest =>
    let r := splitOnComma rest
    if c = ',' then [] :: r
    else
      match r with
      | [] => [[c]]
      | h :: t => (c :: h) :: t

/-- The per-token cleanup in `_parse_keywords`:
`p.strip().strip(quoteChars)` (whitespace first, then quote characters). -/
def stripToken (p : List Char) : List Char :=
  pyStrip isQuoteChar (pyStrip isPySpace p)

/-- The dedup loop of `_parse_keywords`: keep a token when it is non-empty
and not yet seen, preserving first-seen order. -/
def dedupNonEmpty : List (List Char) → List (List Char) → List (List Char)
  | [], _ => []
  | p :: ps, seen =>
    if p ≠ [] ∧ p ∉ seen then p :: dedupNonEmpty ps (p :: seen)
    else dedupNonEmpty ps seen

/-- The `cleaned` list built inside `_parse_keywords`, before the `[:5]`
truncation. -/
def cleanedFull (raw : List Char) : List (List Char) :=
  dedupNonEmpty ((splitOnComma raw).map stripToken) []

/-- `app.py:_parse_keywords`: split on commas, strip whitespace then quote
characters from each token, drop empty tokens, dedup preserving first-seen
order, truncate to 5 entries.  Empty (falsy) input returns the empty list. -/
def parse_keywords (raw : List Char) : List (List Char) :=
  if raw = [] then [] else (cleanedFull raw).take 5

/-- The token count computed in `app.py:run_analysis`:
`len([p for p in keywords_raw.split(",") if p.strip()])`. -/
def user_count (raw : List Char) : Nat :=
  ((splitOnComma raw).filter (fun p => !(pyStrip isPySpace p).isEmpty)).length

/-- The `trimmed` flag computed in `app.py:run_analysis`: false for falsy
input, otherwise `user_count > len(raw_list)` where `raw_list` is the
parsed keyword list. -/
def trimmed_flag (raw : List Char) : Bool :=
  if raw = [] then false
  else decide ((parse_keywords raw).length < user_count raw)

/-- Python `str.isalpha`, per character.  Python consults the Unicode
character database; the model covers the repertoire this development
reasons about: the ASCII letters plus U+00DF (LATIN SMALL LETTER SHARP S,
lowercase sharp s), which is alphabetic in Python. -/
def pyIsAlpha (c : Char) : Bool :=
  c.isAlpha || c = Char.ofNat 0xDF

/-- Python `str.upper`, per character: the full Unicode uppercase mapping,
which may expand one character to several.  Modelled on the same
repertoire: U+00DF upper-cases to the two characters `SS`; ASCII letters
upper-case one-to-one. -/
def pyUpper (c : Char) : List Char :=
  if c = Char.ofNat 0xDF then ['S', 'S'] else [c.toUpper]

/-- Python `s.upper()` on a string: concatenate the uppercase mapping of
each character. -/
def pyUpperStr : List Char → List Char
  | [] => []
  | c :: cs => pyUpper c ++ pyUpperStr cs

/-- `utils.py:get_country_code`.  The external pycountry database is
abstracted as a `lookup` function returning `none` where
`pycountry.countries.lookup` raises.  Empty (falsy) input yields the empty
string; a trimmed 2-character alphabetic input (Python semantics:
`len(s) == 2 and s.isalpha()`) is upper-cased with the Unicode mapping and
returned without any lookup; otherwise the trimmed input is looked up and
a failed lookup yields the empty string. -/
def get_country_code (lookup : List Char → Option (List Char))
    (user_input : List Char) : List Char :=
  if user_input = [] then []
  else if (pyStrip isPySpace user_input).length == 2
          && (pyStrip isPySpace user_input).all pyIsAlpha then
    pyUpperStr (pyStrip isPySpace user_input)
  else
    (lookup (pyStrip isPySpace user_input)).getD []

/-- A cell of a pandas DataFrame as used by this app: either a string
(related-query text, region or date labels) or an integer interest score. -/
inductive Cell where
  | str (s : String)
  | num (n : Int)
deriving DecidableEq, Repr

/-- A pandas DataFrame as used by this app: row index labels, column
labels, and a row-major grid of cells. -/
structure Table where
  index : List String
  columns : List String
  data : List (List Cell)
deriving DecidableEq, Repr

/-- The empty DataFrame `pd.DataFrame()`. -/
def Table.empty : Table := ⟨[], [], []⟩

/-- Pandas `df.empty`: true when the frame holds no items, i.e. it has no
rows or no columns. -/
def Table.isEmpty (t : Table) : Bool := t.data.isEmpty || t.columns.isEmpty

/-- Pandas `df.drop(columns=[c])` restricted to the first matching label
(the app only drops the unique `isPartial` column). -/
def Table.dropColumn (t : Table) (c : String) : Table :=
  match t.columns.findIdx? (fun x => x == c) with
  | none => t
  | some i => ⟨t.index, t.columns.eraseIdx i, t.data.map (fun r => r.eraseIdx i)⟩

/-- JSON values, the transport form used by the `dcc.Store` cache. -/
inductive Jv where
  | str (s : String)
  | num (n : Int)
  | arr (xs : List Jv)
  | obj (fields : List (String × Jv))

/-- Encoding of one cell into JSON. -/
def Cell.toJv : Cell → Jv
  | .str s => .str s
  | .num n => .num n

/-- Decoding of one cell from JSON. -/
def Jv.toCell : Jv → Option Cell
  | .str s => some (.str s)
  | .num n => some (.num n)
  | _ => none

/-- Projection of a JSON value to a string. -/
def Jv.asStr : Jv → Option String
  | .str s => some s
  | _ => none

/-- Projection of a JSON value to an array. -/
def Jv.asArr : Jv → Option (List Jv)
  | .arr xs => some xs
  | _ => none

/-- Monadic map over `Option`, used by the JSON decoder. -/
def optMapM (f : α → Option β) : List α → Option (List β)
  | [] => some []
  | a :: as =>
    match f a, optMapM f as with
    | some b, some bs => some (b :: bs)
    | _, _ => none

/-- Pandas `df.to_json(orient="split")` as used in `run_analysis`:
a JSON object with the column labels, the index labels and the row-major
data grid, in that fixed key order. -/
def to_json_split (t : Table) : Jv :=
  .obj [("columns", .arr (t.columns.map Jv.str)),
        ("index", .arr (t.index.map Jv.str)),
        ("data", .arr (t.data.map (fun r => Jv.arr (r.map Cell.toJv))))]

/-- Pandas `pd.read_json(stored, orient="split")` as used by the render
callbacks: rebuild the frame from the stored columns, index and data. -/
def read_json_split (j : Jv) : Option Table :=
  match j with
  | .obj [("columns", Jv.arr cs), ("index", Jv.arr ixs), ("data", Jv.arr ds)] =>
    match optMapM Jv.asStr cs, optMapM Jv.asStr ixs,
          optMapM (fun jr => (Jv.asArr jr).bind (optMapM Jv.toCell)) ds with
    | some columns, some index, some data => some ⟨index, columns, data⟩
    | _, _, _ => none
  | _ => none

/-- The `top`/`rising` pair pytrends returns for one keyword
(`trend_data.py:get_related_frames` calls it a bucket).  Either table may
be missing. -/
structure Bucket where
  top : Option Table
  rising : Option Table
deriving DecidableEq, Repr

/-- Behaviour of the external pytrends client for one fetch cycle.
`buildPayloadOk = false` means `build_payload` raises; each fetch result is
either an exception (`Except.error`), a non-DataFrame value (`none`), or a
returned value.  `related_queries` returns an optional dict from keyword to
an optional bucket. -/
structure Provider where
  buildPayloadOk : Bool
  iotResult : Except Unit (Option Table)
  regionResult : Except Unit (Option Table)
  relatedResult : Except Unit (Option (List (String × Option Bucket)))

/-- `trend_data.py:TrendData`: the gateway state, holding the external
client and the current query parameters. -/
structure TrendData where
  provider : Provider
  keywords : List String
  timeframe : String
  geo : String

/-- `TrendData.set_query`: replace the stored query; falsy keywords are
filtered out, a falsy timeframe falls back to the default. -/
def set_query (td : TrendData) (keywords : List String) (timeframe : String)
    (geo : String) : TrendData :=
  { td with
    keywords := keywords.filter (fun k => k != ""),
    timeframe := if timeframe = "" then "today 1-m" else timeframe,
    geo := geo }

/-- `TrendData._build_payload`: with keywords present it makes one provider
call that may raise; with no keywords it does nothing. -/
def build_payload (td : TrendData) : Except Unit Unit :=
  if td.keywords.isEmpty then .ok ()
  else if td.provider.buildPayloadOk then .ok () else .error ()

/-- `TrendData.fetch_interest_over_time`.  The `Bool` records whether any
provider call was attempted.  No keywords: empty frame, no call.  Payload
build and the fetch itself are unguarded, so their exceptions propagate;
a non-DataFrame result becomes the empty frame; the `isPartial` column is
dropped from a non-empty result that has it. -/
def fetch_interest_over_time (td : TrendData) : Except Unit Table × Bool :=
  if td.keywords.isEmpty then (.ok Table.empty, false)
  else
    match build_payload td with
    | .error _ => (.error (), true)
    | .ok _ =>
      match td.provider.iotResult with
      | .error _ => (.error (), true)
      | .ok none => (.ok Table.empty, true)
      | .ok (some df) =>
        (.ok (if !df.isEmpty && df.columns.contains "isPartial"
              then df.dropColumn "isPartial" else df), true)

/-- `TrendData.get_interest_by_region`.  No keywords: empty frame, no call.
`_build_payload` runs before the `try` block, so its exception propagates;
an exception from the `interest_by_region` call itself, or a non-DataFrame
result, yields the empty frame. -/
def get_interest_by_region (td : TrendData) : Except Unit Table × Bool :=
  if td.keywords.isEmpty then (.ok Table.empty, false)
  else
    match build_payload td with
    | .error _ => (.error (), true)
    | .ok _ =>
      match td.provider.regionResult with
      | .error _ => (.ok Table.empty, true)
      | .ok none => (.ok Table.empty, true)
      | .ok (some df) => (.ok df, true)

/-- `TrendData.get_related_queries`.  No keywords: `None`, no call.
`_build_payload` runs before the `try` block, so its exception propagates;
an exception from the `related_queries` call yields `None`. -/
def get_related_queries (td : TrendData) :
    Except Unit (Option (List (String × Option Bucket))) × Bool :=
  if td.keywords.isEmpty then (.ok none, false)
  else
    match build_payload td with
    | .error _ => (.error (), true)
    | .ok _ =>
      match td.provider.relatedResult with
      | .error _ => (.ok none, true)
      | .ok rq => (.ok rq, true)

/-- Python `rq.get(self.keywords[0], {}) or {}`: a missing key or a falsy
bucket both give the empty bucket. -/
def lookupBucket (rq : List (String × Option Bucket)) (k : String) : Bucket :=
  match rq.lookup k with
  | some (some b) => b
  | some none => ⟨none, none⟩
  | none => ⟨none, none⟩

/-- The present-but-empty normalization in `get_related_frames`: a
DataFrame that is empty is replaced by `None`. -/
def normEmpty : Option Table → Option Table
  | some t => if t.isEmpty then none else some t
  | none => none

/-- `TrendData.get_related_frames`: take the raw related-queries dict,
and when it is truthy and keywords exist, extract the bucket of the first
keyword and normalize present-but-empty tables to absent. -/
def get_related_frames (td : TrendData) :
    Except Unit (Option Table × Option Table) × Bool :=
  match get_related_queries td with
  | (.error _, c) => (.error (), c)
  | (.ok rq, c) =>
    match rq, td.keywords with
    | some l, k :: _ =>
      if l.isEmpty then (.ok (none, none), c)
      else (.ok (normEmpty (lookupBucket l k).top,
                 normEmpty (lookupBucket l k).rising), c)
    | _, _ => (.ok (none, none), c)

/-- The `store-related` cache slot written by `run_analysis`: for each of
`top` and `rising`, either `None` or the JSON serialization of a DataFrame.
A serialized DataFrame is a non-empty string and hence always truthy in the
`if top_json:` test, even when the frame it encodes has no rows, so the
slot is modelled by the frame itself. -/
structure RelatedStore where
  top : Option Table
  rising : Option Table

/-- The message shown when no related-query rows are displayed. -/
def noRelatedMsg : String :=
  "No related queries available for this keyword/timeframe/region."

/-- The note shown when rising rows replace the unavailable top rows. -/
def risingNote : String :=
  "Top not available for this combo - showing rising queries instead."

/-- The note shown with top rows. -/
def topNote : String := "Showing top related queries."

/-- `app.py:update_related_table`: returns the table columns, the rows and
the note.  A truthy `top` entry is preferred even if the frame it encodes
is empty; only when `top` is `None` is `rising` consulted; an empty chosen
frame falls through to the no-data message. -/
def update_related_table (store : Option RelatedStore) :
    List String × List (List Cell) × String :=
  match store with
  | none => ([], [], "")
  | some s =>
    match s.top, s.rising with
    | some df, _ =>
      if df.isEmpty then ([], [], noRelatedMsg)
      else (df.columns, df.data, topNote)
    | none, some df =>
      if df.isEmpty then ([], [], noRelatedMsg)
      else (df.columns, df.data, risingNote)
    | none, none => ([], [], noRelatedMsg)

/-- The value used to order rows in `update_top_regions`: the cell of the
row at the keyword column position (interest scores are numeric; a missing
or non-numeric cell counts as 0). -/
def rowKey (pos : Nat) (r : List Cell) : Int :=
  match r.getD pos (Cell.num 0) with
  | .num n => n
  | .str _ => 0

/-- Row ordering used for the descending sort: a row comes first when its
key-column value is at least the other rows value. -/
def rGE (pos : Nat) (a b : String × List Cell) : Prop :=
  rowKey pos b.2 ≤ rowKey pos a.2

instance (pos : Nat) : DecidableRel (rGE pos) :=
  fun _ _ => Int.decLe _ _

instance (pos : Nat) : IsTotal (String × List Cell) (rGE pos) :=
  ⟨fun a b => Or.symm (le_total (rowKey pos a.2) (rowKey pos b.2))⟩

instance (pos : Nat) : IsTrans (String × List Cell) (rGE pos) :=
  ⟨fun _ _ _ hab hbc => le_trans hbc hab⟩

/-- Pandas `df.rename(columns={old: nw})`. -/
def Table.renameColumn (t : Table) (old nw : String) : Table :=
  ⟨t.index, t.columns.map (fun c => if c == old then nw else c), t.data⟩

/-- The filter-sort-truncate line of `app.py:update_top_regions`:
`region_df[region_df[kw] >= (min_interest or 0)]
   .sort_values(by=kw, ascending=False).head(top_n or 10)`,
with `pos` the position of the keyword column.  A falsy (zero) `top_n`
falls back to 10; `min_interest or 0` equals `min_interest` on naturals. -/
def update_top_regions_core (region : Table) (pos : Nat)
    (min_interest top_n : Nat) : Table :=
  let tn := if top_n = 0 then 10 else top_n
  let kept := (region.index.zip region.data).filter
    (fun r => decide ((min_interest : Int) ≤ rowKey pos r.2))
  let taken := (List.insertionSort (rGE pos) kept).take tn
  ⟨taken.map Prod.fst, region.columns, taken.map Prod.snd⟩

/-- `app.py:update_top_regions`: requires both stores, a first time-series
column, and that column present among the region columns; filters, sorts
descending, truncates, and when rows remain renames the keyword column and
hands the frame to the bar-chart builder (`none` models the empty figure). -/
def update_top_regions (region_store time_store : Option Table)
    (min_interest top_n : Nat) : Option Table :=
  match region_store, time_store with
  | some region_df, some time_df =>
    match time_df.columns with
    | [] => none
    | first_keyword :: _ =>
      match region_df.columns.findIdx? (fun c => c == first_keyword) with
      | none => none
      | some pos =>
        let fr := update_top_regions_core region_df pos min_interest top_n
        if fr.isEmpty then none
        else some (fr.renameColumn first_keyword (first_keyword ++ "_interest"))
  | _, _ => none

theorem dedupNonEmpty_sublist (l seen : List (List Char)) :
    List.Sublist (dedupNonEmpty l seen) l := by
  induction l generalizing seen with
  | nil => simp [dedupNonEmpty]
  | cons p ps ih =>
    unfold dedupNonEmpty
    split
    · exact (ih (p :: seen)).cons₂ p
    · exact (ih seen).cons p

theorem mem_dedupNonEmpty (l seen : List (List Char)) (x : List Char)
    (hx : x ∈ dedupNonEmpty l seen) : x ∉ seen ∧ x ≠ [] := by
  induction l generalizing seen with
  | nil => simp [dedupNonEmpty] at hx
  | cons p ps ih =>
    unfold dedupNonEmpty at hx
    split at hx
    · rcases List.mem_cons.mp hx with h | h
      · subst h
        rename_i hcond
        exact ⟨hcond.2, hcond.1⟩
      · have := ih (p :: seen) h
        exact ⟨fun hs => this.1 (List.mem_cons_of_mem p hs), this.2⟩
    · exact ih seen hx

theorem dedupNonEmpty_nodup (l seen : List (List Char)) :
    (dedupNonEmpty l seen).Nodup := by
  induction l generalizing seen with
  | nil => simp [dedupNonEmpty]
  | cons p ps ih =>
    unfold dedupNonEmpty
    split
    · refine List.nodup_cons.mpr ⟨?_, ih (p :: seen)⟩
      intro hmem
      exact (mem_dedupNonEmpty ps (p :: seen) p hmem).1 (List.mem_cons_self p seen)
    · exact ih seen

theorem dedupNonEmpty_length_le (l seen : List (List Char)) :
    (dedupNonEmpty l seen).length ≤ (l.filter (fun p => !p.isEmpty)).length := by
  induction l generalizing seen with
  | nil => simp [dedupNonEmpty]
  | cons p ps ih =>
    unfold dedupNonEmpty
    split
    · rename_i hcond
      have hne : (!p.isEmpty) = true := by
        simpa [List.isEmpty_iff] using hcond.1
      simp only [List.filter_cons, hne, List.length_cons, if_true]
      exact Nat.succ_le_succ (ih (p :: seen))
    · cases hne : (!p.isEmpty) <;>
        simp only [List.filter_cons, hne, List.length_cons, if_true, if_false] <;>
        [exact ih seen; exact le_trans (ih seen) (Nat.le_succ _)]

theorem stripToken_ne_nil {p : List Char} (h : stripToken p ≠ []) :
    pyStrip isPySpace p ≠ [] := by
  intro h0
  apply h
  unfold stripToken
  rw [h0]
  rfl

theorem length_filter_map_le (l : List (List Char)) :
    ((l.map stripToken).filter (fun p => !p.isEmpty)).length ≤
    (l.filter (fun p => !(pyStrip isPySpace p).isEmpty)).length := by
  induction l with
  | nil => simp
  | cons p ps ih =>
    simp only [List.map_cons, List.filter_cons]
    cases h1 : (!(stripToken p).isEmpty) with
    | false =>
      cases h2 : (!(pyStrip isPySpace p).isEmpty) <;> simp <;> omega
    | true =>
      have h2 : (!(pyStrip isPySpace p).isEmpty) = true := by
        have hne := stripToken_ne_nil (p := p) (by simpa [List.isEmpty_iff] using h1)
        simpa [List.isEmpty_iff] using hne
      rw [h2]
      simpa using ih

theorem cleanedFull_length_le_user_count (raw : List Char) :
    (cleanedFull raw).length ≤ user_count raw :=
  le_trans (dedupNonEmpty_length_le _ _) (length_filter_map_le _)

theorem optMapM_asStr (l : List String) :
    optMapM Jv.asStr (l.map Jv.str) = some l := by
  induction l with
  | nil => rfl
  | cons s ss ih => simp [optMapM, Jv.asStr, ih]

theorem optMapM_toCell (r : List Cell) :
    optMapM Jv.toCell (r.map Cell.toJv) = some r := by
  induction r with
  | nil => rfl
  | cons c cs ih => cases c <;> simp [optMapM, Cell.toJv, Jv.toCell, ih]

theorem optMapM_rows (ds : List (List Cell)) :
    optMapM (fun jr => (Jv.asArr jr).bind (optMapM Jv.toCell))
      (ds.map (fun r => Jv.arr (r.map Cell.toJv))) = some ds := by
  induction ds with
  | nil => rfl
  | cons r rs ih =>
    simp only [List.map_cons]
    unfold optMapM
    rw [ih]
    simp [Jv.asArr, optMapM_toCell]

/-- C1 counterexample: with one keyword and a provider whose
`build_payload` raises, `get_interest_by_region` propagates the exception
instead of returning an empty table, because `_build_payload()` runs before
the `try` block. -/
theorem c1_counterexample :
    (get_interest_by_region
      ⟨⟨false, .ok none, .ok none, .ok none⟩, ["x"], "today 1-m", ""⟩).1
      = .error () ∧
    (get_interest_by_region
      ⟨⟨false, .ok none, .ok none, .ok none⟩, ["x"], "today 1-m", ""⟩).1
      ≠ .ok Table.empty :=
  ⟨rfl, fun h => nomatch h⟩

/-- C1 (amended): with a non-empty keyword list and a payload build that
succeeds, any failure of the `interest_by_region` call itself (an exception
or a non-DataFrame result) yields the empty table instead of propagating. -/
theorem c1_region_failure_empty (td : TrendData) (hk : td.keywords ≠ [])
    (hb : td.provider.buildPayloadOk = true)
    (hr : td.provider.regionResult = .error () ∨
          td.provider.regionResult = .ok none) :
    get_interest_by_region td = (.ok Table.empty, true) := by
  have hke : td.keywords.isEmpty = false := by
    simpa [List.isEmpty_iff] using hk
  rcases hr with h | h <;>
    simp [get_interest_by_region, build_payload, hke, hb, h]

/-- C1 witness: the amended theorem applied to a concrete gateway whose
region call raises. -/
theorem c1_region_failure_empty_witness :
    get_interest_by_region
      ⟨⟨true, .ok none, .error (), .ok none⟩, ["x"], "today 1-m", ""⟩
      = (.ok Table.empty, true) :=
  c1_region_failure_empty _ (by simp) rfl (Or.inl rfl)

/-- C2: serializing any table through the cache transport
(`to_json(orient="split")`) and reading it back (`read_json(orient="split")`)
reconstructs the table exactly: same index values, same column order, same
cell values. -/
theorem c2_cache_roundtrip (t : Table) :
    read_json_split (to_json_split t) = some t := by
  simp [to_json_split, read_json_split, optMapM_asStr, optMapM_rows]

/-- C3 counterexample: the raw input consisting of a quoted single space
parses to a list containing a whitespace-only entry, because whitespace is
stripped before quotes and never afterwards. -/
theorem c3_counterexample :
    parse_keywords [Char.ofNat 39, ' ', Char.ofNat 39] = [[' ']] ∧
    [' '] ≠ ([] : List Char) ∧
    [' '].all isPySpace = true := by decide

/-- C3 (amended): for every raw keyword string the parsed list has length
at most 5, no duplicates, no empty entries (whitespace-only entries can
remain when quote stripping exposes inner whitespace), and is a sublist of
the stripped comma-separated tokens, so first-seen order is preserved; and
the quoted example parses as stated. -/
theorem c3_parse_keywords_clean :
    (∀ raw, (parse_keywords raw).length ≤ 5 ∧
            (parse_keywords raw).Nodup ∧
            (∀ x, x ∈ parse_keywords raw → x ≠ []) ∧
            List.Sublist (parse_keywords raw)
              ((splitOnComma raw).map stripToken)) ∧
    parse_keywords ("Python, Data Science, Python".data)
      = ["Python".data, "Data Science".data] := by
  constructor
  · intro raw
    by_cases h : raw = []
    · subst h
      simp [parse_keywords]
    · unfold parse_keywords cleanedFull
      rw [if_neg h]
      refine ⟨List.length_take_le 5 _, ?_, ?_, ?_⟩
      · exact List.Nodup.sublist (List.take_sublist _ _) (dedupNonEmpty_nodup _ _)
      · intro x hx
        exact (mem_dedupNonEmpty _ _ x ((List.take_sublist _ _).subset hx)).2
      · exact (List.take_sublist _ _).trans (dedupNonEmpty_sublist _ _)
  · decide

/-- C3 witness: the amended theorem applied at the quoted example input. -/
theorem c3_parse_keywords_clean_witness : "Python".data ≠ [] :=
  (c3_parse_keywords_clean.1 ("Python, Data Science, Python".data)).2.2.1
    ("Python".data) (by decide)

/-- C4 counterexample: a related store whose `top` slot holds a serialized
empty table (truthy) and whose `rising` slot holds 3 rows renders the
no-data message, not the rising rows with the rising note. -/
theorem c4_counterexample :
    update_related_table (some ⟨some ⟨[], ["query", "value"], []⟩,
      some ⟨["0", "1", "2"], ["query", "value"],
        [[.str "a", .num 1], [.str "b", .num 2], [.str "c", .num 3]]⟩⟩)
      = ([], [], noRelatedMsg) ∧
    noRelatedMsg ≠ risingNote ∧
    (([], [], noRelatedMsg) : List String × List (List Cell) × String)
      ≠ (["query", "value"],
         [[.str "a", .num 1], [.str "b", .num 2], [.str "c", .num 3]],
         risingNote) := by decide

/-- C4 (amended): when `top` is absent (as the Gateway guarantees after
normalizing a present-but-empty table to absent) and `rising` is a
non-empty table, the render step shows the rising rows with the rising
note. -/
theorem c4_rising_fallback (r : Table) (hr : r.isEmpty = false) :
    update_related_table (some ⟨none, some r⟩)
      = (r.columns, r.data, risingNote) := by
  simp [update_related_table, hr]

/-- C4 witness: the amended theorem applied to a concrete 3-row rising
table. -/
theorem c4_rising_fallback_witness :
    update_related_table (some ⟨none,
      some ⟨["0", "1", "2"], ["query", "value"],
        [[.str "a", .num 1], [.str "b", .num 2], [.str "c", .num 3]]⟩⟩)
      = (["query", "value"],
         [[.str "a", .num 1], [.str "b", .num 2], [.str "c", .num 3]],
         risingNote) :=
  c4_rising_fallback _ rfl

/-- C5 counterexample: for the input `a,a` the truncation flag is true even
though no truncation to 5 keywords occurred (the cleaned list has a single
entry and the `[:5]` step dropped nothing); the flag also fires on
duplicate removal. -/
theorem c5_counterexample :
    trimmed_flag ("a,a".data) = true ∧
    ¬ (5 < (cleanedFull ("a,a".data)).length) ∧
    parse_keywords ("a,a".data) = cleanedFull ("a,a".data) := by decide

/-- C5 (amended): the flag is true whenever truncation to the first 5
keywords occurred (it can also be true without truncation, when duplicates
or quote-only tokens were dropped), and on `a,b,c,d,e,f,g` the parsed
result is the first 5 entries with the flag true. -/
theorem c5_trimmed_flag :
    (∀ raw, 5 < (cleanedFull raw).length → trimmed_flag raw = true) ∧
    parse_keywords ("a,b,c,d,e,f,g".data)
      = ["a".data, "b".data, "c".data, "d".data, "e".data] ∧
    trimmed_flag ("a,b,c,d,e,f,g".data) = true := by
  refine ⟨?_, by decide, by decide⟩
  intro raw h5
  have hraw : raw ≠ [] := by
    intro h
    subst h
    rw [show cleanedFull [] = [] from rfl] at h5
    simp at h5
  unfold trimmed_flag
  rw [if_neg hraw]
  have hlen : (parse_keywords raw).length = 5 := by
    unfold parse_keywords
    rw [if_neg hraw, List.length_take]
    omega
  have huc : 5 < user_count raw :=
    lt_of_lt_of_le h5 (cleanedFull_length_le_user_count raw)
  rw [hlen]
  exact decide_eq_true (by omega)

/-- C5 witness: the amended theorem applied at the 7-keyword example. -/
theorem c5_trimmed_flag_witness : trimmed_flag ("a,b,c,d,e,f,g".data) = true :=
  c5_trimmed_flag.1 ("a,b,c,d,e,f,g".data) (by decide)

/-- C6: behaviour of `get_country_code` over any country database
containing Nigeria and not containing the phrase `Not A Country`: empty
input and failed lookups yield the empty string, a trimmed 2-letter
alphabetic input is upper-cased verbatim with no lookup, and any other
input resolves through the database. -/
theorem c6_get_country_code (lookup : List Char → Option (List Char))
    (hNigeria : lookup ("Nigeria".data) = some ("NG".data))
    (hNotA : lookup ("Not A Country".data) = none) :
    get_country_code lookup [] = [] ∧
    get_country_code lookup ("ng".data) = "NG".data ∧
    get_country_code lookup ("Nigeria".data) = "NG".data ∧
    get_country_code lookup ("Not A Country".data) = [] ∧
    (∀ s, s ≠ [] →
      ((pyStrip isPySpace s).length == 2
        && (pyStrip isPySpace s).all pyIsAlpha) = true →
      get_country_code lookup s = pyUpperStr (pyStrip isPySpace s)) ∧
    (∀ s, s ≠ [] →
      ((pyStrip isPySpace s).length == 2
        && (pyStrip isPySpace s).all pyIsAlpha) = false →
      get_country_code lookup s = (lookup (pyStrip isPySpace s)).getD []) := by
  refine ⟨rfl, rfl, ?_, ?_, ?_, ?_⟩
  · rw [show get_country_code lookup ("Nigeria".data)
        = (lookup ("Nigeria".data)).getD [] from rfl, hNigeria]
    rfl
  · rw [show get_country_code lookup ("Not A Country".data)
        = (lookup ("Not A Country".data)).getD [] from rfl, hNotA]
    rfl
  · intro s hs hcond
    unfold get_country_code
    rw [if_neg hs, if_pos hcond]
  · intro s hs hcond
    unfold get_country_code
    rw [if_neg hs, if_neg (by simp [hcond])]

/-- C6 witness: the theorem applied to a one-entry model of the country
database. -/
theorem c6_get_country_code_witness :
    get_country_code
      (fun s => if s = "Nigeria".data then some ("NG".data) else none)
      ("Nigeria".data) = "NG".data :=
  (c6_get_country_code _ (by decide) (by decide)).2.2.1

/-- C7: with an empty keyword list, all three fetch operations return
empty or absent results and the `Bool` component witnesses that no
provider call was attempted. -/
theorem c7_no_keywords_no_call (td : TrendData) (hk : td.keywords = []) :
    fetch_interest_over_time td = (.ok Table.empty, false) ∧
    get_interest_by_region td = (.ok Table.empty, false) ∧
    get_related_queries td = (.ok none, false) := by
  refine ⟨?_, ?_, ?_⟩ <;>
    simp [fetch_interest_over_time, get_interest_by_region,
          get_related_queries, hk]

/-- C7 witness: the theorem applied to a concrete gateway with no
keywords. -/
theorem c7_no_keywords_no_call_witness :
    fetch_interest_over_time
      ⟨⟨true, .ok none, .ok none, .ok none⟩, [], "today 1-m", ""⟩
      = (.ok Table.empty, false) :=
  (c7_no_keywords_no_call ⟨⟨true, .ok none, .ok none, .ok none⟩,
    [], "today 1-m", ""⟩ rfl).1

/-- C8 counterexample: with `top_n = 0` the step falls back to
`head(10)` and returns one row, more than `top_n` rows. -/
theorem c8_counterexample :
    update_top_regions
      (some ⟨["Germany", "France"], ["Python"], [[.num 50], [.num 10]]⟩)
      (some ⟨["d1"], ["Python"], [[.num 1]]⟩) 20 0
      = some ⟨["Germany"], ["Python_interest"], [[.num 50]]⟩ ∧
    ¬ ((1 : Nat) ≤ 0) := by decide

/-- C8 (amended): for every region table containing the keyword column at
position `pos` and every `min_interest` and positive `top_n`, the
filter-sort-truncate step returns at most `top_n` rows, every returned row
has key-column value at least `min_interest`, and the rows are sorted in
descending key-column order. -/
theorem c8_top_regions_bounds (region : Table) (kw : String) (pos : Nat)
    (min_interest top_n : Nat)
    (_hcol : region.columns.findIdx? (fun c => c == kw) = some pos)
    (htn : 1 ≤ top_n) :
    (update_top_regions_core region pos min_interest top_n).data.length ≤ top_n ∧
    (∀ r ∈ (update_top_regions_core region pos min_interest top_n).data,
      (min_interest : Int) ≤ rowKey pos r) ∧
    List.Pairwise (fun a b => rowKey pos b ≤ rowKey pos a)
      (update_top_regions_core region pos min_interest top_n).data := by
  have htn0 : (if top_n = 0 then 10 else top_n) = top_n := if_neg (by omega)
  have hdata : (update_top_regions_core region pos min_interest top_n).data =
      ((List.insertionSort (rGE pos)
        ((region.index.zip region.data).filter
          (fun r => decide ((min_interest : Int) ≤ rowKey pos r.2)))).take
        (if top_n = 0 then 10 else top_n)).map Prod.snd := rfl
  rw [hdata, htn0]
  refine ⟨?_, ?_, ?_⟩
  · rw [List.length_map]
    exact List.length_take_le top_n _
  · intro r hr
    rw [List.mem_map] at hr
    obtain ⟨pr, hpr, rfl⟩ := hr
    have h1 := (List.take_sublist _ _).subset hpr
    have h2 := (List.perm_insertionSort (rGE pos) _).subset h1
    exact of_decide_eq_true (List.mem_filter.mp h2).2
  · have hs : List.Sorted (rGE pos) (List.insertionSort (rGE pos)
        ((region.index.zip region.data).filter
          (fun r => decide ((min_interest : Int) ≤ rowKey pos r.2)))) :=
      List.sorted_insertionSort (rGE pos) _
    have ht := List.Pairwise.sublist (List.take_sublist top_n _) hs
    exact List.pairwise_map.mpr ht

/-- C8 witness: the amended theorem applied to a concrete two-row region
table with `min_interest = 20` and `top_n = 3`. -/
theorem c8_top_regions_bounds_witness :
    (update_top_regions_core
      ⟨["Germany", "France"], ["Python"], [[.num 50], [.num 10]]⟩
      0 20 3).data.length ≤ 3 :=
  (c8_top_regions_bounds
    ⟨["Germany", "France"], ["Python"], [[.num 50], [.num 10]]⟩
    "Python" 0 20 3 (by decide) (by decide)).1

/-- C9: `get_related_frames` with no keywords, or a provider returning
nothing (an exception or `None`), yields an absent-absent bundle; when a
dict is returned, only the bucket of the first keyword is consulted and
present-but-empty tables are normalized to absent (via `normEmpty`). -/
theorem c9_related_frames_extraction (td : TrendData) :
    (td.keywords = [] → get_related_frames td = (.ok (none, none), false)) ∧
    (td.provider.buildPayloadOk = true → ∀ k rest, td.keywords = k :: rest →
      (td.provider.relatedResult = .error () →
        (get_related_frames td).1 = .ok (none, none)) ∧
      (td.provider.relatedResult = .ok none →
        (get_related_frames td).1 = .ok (none, none)) ∧
      (∀ l, td.provider.relatedResult = .ok (some l) →
        (get_related_frames td).1 =
          .ok (if l.isEmpty then (none, none)
               else (normEmpty (lookupBucket l k).top,
                     normEmpty (lookupBucket l k).rising)))) := by
  constructor
  · intro hk
    simp [get_related_frames, get_related_queries, hk]
  · intro hb k rest hk
    refine ⟨?_, ?_, ?_⟩
    · intro hr
      simp [get_related_frames, get_related_queries, build_payload, hk, hb, hr]
    · intro hr
      simp [get_related_frames, get_related_queries, build_payload, hk, hb, hr]
    · intro l hr
      by_cases hl : l.isEmpty <;>
        simp [get_related_frames, get_related_queries, build_payload,
              hk, hb, hr, hl]

/-- C9 witness: the theorem applied to a concrete gateway whose provider
returns a bucket with a present-but-empty top table and a 3-row rising
table for the first keyword; the bundle comes back with top absent. -/
theorem c9_related_frames_extraction_witness :
    (get_related_frames ⟨⟨true, .ok none, .ok none,
      .ok (some [("x", some ⟨some ⟨[], ["query", "value"], []⟩,
        some ⟨["0", "1", "2"], ["query", "value"],
          [[.str "a", .num 1], [.str "b", .num 2], [.str "c", .num 3]]⟩⟩)])⟩,
      ["x"], "today 1-m", ""⟩).1
    = .ok (none, some ⟨["0", "1", "2"], ["query", "value"],
        [[.str "a", .num 1], [.str "b", .num 2], [.str "c", .num 3]]⟩) :=
  (((c9_related_frames_extraction _).2 rfl "x" [] rfl).2.2
    [("x", some ⟨some ⟨[], ["query", "value"], []⟩,
      some ⟨["0", "1", "2"], ["query", "value"],
        [[.str "a", .num 1], [.str "b", .num 2], [.str "c", .num 3]]⟩⟩)] rfl)

